import Mathlib

/-!
Shallow embedding of the EJFAT load-balancer control-plane client
(`lb_cplane.h` / `lb_cplane.cc`): the `BackEnd`, `LbControlPlaneClient`
and `LbReservation` classes, their RPC-driven state transitions, and the
URI construction used by the static one-shot reservation paths.

Modelling conventions:
* The gRPC transport is an oracle: each call takes the server's `Status`
  and reply message as explicit arguments; the request message the client
  puts on the wire is returned explicitly, so "what was sent" is visible.
* C++ `float` fields (`weight`, `fillPercent`, `pidError`,
  `controlSignal`) are only ever stored and copied by this client code,
  never computed with, so they are modelled by an exact scalar type.
* Wall-clock reads (`clock_gettime`) are passed in as explicit arguments.
* Machine integers: `uint16_t` narrowing is modelled by `% 65536`;
  `sprintf` conversions `%hu` / `%d` are modelled by dedicated printers.
-/

/-- Exact stand-in for C++ `float` values, which this client only stores
and copies (no arithmetic is ever performed on them). -/
abbrev FloatV := Int

/-- `google::protobuf::Timestamp`: seconds and nanoseconds past epoch. -/
structure Timestamp where
  seconds : Int
  nanos   : Int
deriving DecidableEq, Repr

/-- `google::protobuf::util::TimeUtil::TimestampToMilliseconds`:
milliseconds past epoch derived from a protobuf timestamp. -/
def timestampToMilliseconds (t : Timestamp) : Int :=
  t.seconds * 1000 + t.nanos / 1000000

/-- `grpc::Status` as observed by this client: `ok()`, `error_code()`,
`error_message()`. -/
structure Status where
  ok : Bool
  error_code : Int
  error_message : String
deriving DecidableEq, Repr

/-- Value printed by `sprintf` conversion `%hu` for a `uint16_t`. -/
def printUInt16 (n : Nat) : String := toString (n % 65536)

/-- Value printed by `sprintf` conversion `%d` when handed a `uint32_t`
(the bit pattern is read back as a signed 32-bit int). -/
def printInt32 (n : Nat) : String :=
  let m := n % 4294967296
  if m < 2147483648 then toString m else "-" ++ toString (4294967296 - m)

/-! ## Protobuf messages (fields actually used by the client) -/

/-- `loadbalancer::RegisterRequest`. -/
structure RegisterRequest where
  token : String
  name : String
  lbid : String
  weight : FloatV
  ipaddress : String
  udpport : Nat
  portrange : Int
deriving DecidableEq, Repr

/-- `loadbalancer::RegisterReply`. -/
structure RegisterReply where
  sessionid : String := ""
  token : String := ""
deriving DecidableEq, Repr

/-- `loadbalancer::DeregisterRequest`. -/
structure DeregisterRequest where
  token : String
  lbid : String
  sessionid : String
deriving DecidableEq, Repr

/-- `loadbalancer::SendStateRequest`. -/
structure SendStateRequest where
  token : String
  lbid : String
  sessionid : String
  timestamp : Timestamp
  fillpercent : FloatV
  controlsignal : FloatV
  isready : Bool
deriving DecidableEq, Repr

/-- `loadbalancer::ReserveLoadBalancerRequest` (`until` is the expiry). -/
structure ReserveLoadBalancerRequest where
  token : String
  name : String
  untilTime : Timestamp
deriving DecidableEq, Repr

/-- `loadbalancer::ReserveLoadBalancerReply` (also the reply shape of
`GetLoadBalancer`); protobuf string fields default to `""`, the
`uint32` port to `0`. -/
structure ReserveLoadBalancerReply where
  token : String := ""
  lbid : String := ""
  syncipaddress : String := ""
  syncudpport : Nat := 0
  dataipv4address : String := ""
  dataipv6address : String := ""
deriving DecidableEq, Repr

/-- One element of `LoadBalancerStatusReply.workers`. -/
structure WorkerStatus where
  name : String
  fillpercent : FloatV
  controlsignal : FloatV
  slotsassigned : Nat
  lastupdated : Timestamp
deriving DecidableEq, Repr

/-- `loadbalancer::LoadBalancerStatusReply`: the repeated `workers`
field, in wire order. -/
structure LoadBalancerStatusReply where
  workers : List WorkerStatus
deriving DecidableEq, Repr

/-! ## Address classification (`is_ipv4` / `is_ipv6`)

The C++ helpers test the whole string against anchored regexes.
`is_ipv4` uses `^((25[0-5]|2[0-4][0-9]|[01]?[0-9][0-9]?)\.){3}(...)$`:
a string matches iff it splits on `.` into exactly four groups each in
the octet alternation's language (an octet contains no dot, so that
decomposition is unique). `is_ipv6` likewise uses
`^([0-9a-fA-F]{1,4}:){7}[0-9a-fA-F]{1,4}$`. -/

/-- Split a character list at every occurrence of `sep` (the groups a
separator-free regex group pattern must match); `[[]]` for the empty
list, mirroring how an anchored `(g sep){k-1} g` regex decomposes. -/
def splitOnChar (sep : Char) : List Char → List (List Char)
  | [] => [[]]
  | c :: cs =>
    match splitOnChar sep cs, decide (c = sep) with
    | rest, true => [] :: rest
    | [], false => [[c]]
    | g :: gs, false => (c :: g) :: gs

/-- Language of the octet alternation `25[0-5]|2[0-4][0-9]|[01]?[0-9][0-9]?`. -/
def octetMatch (cs : List Char) : Bool :=
  match cs with
  | [a] => a.isDigit
  | [a, b] => a.isDigit && b.isDigit
  | [a, b, c] =>
      (a = '2' && b = '5' && ('0' ≤ c && c ≤ '5')) ||
      (a = '2' && ('0' ≤ b && b ≤ '4') && c.isDigit) ||
      ((a = '0' || a = '1') && b.isDigit && c.isDigit)
  | _ => false

/-- `is_ipv4` from `lb_cplane.cc`: strict dotted-decimal IPv4 literal. -/
def is_ipv4 (s : String) : Bool :=
  let parts := splitOnChar '.' s.data
  parts.length = 4 && parts.all octetMatch

/-- A hexadecimal digit, `[0-9a-fA-F]`. -/
def isHexChar (c : Char) : Bool :=
  c.isDigit || ('a' ≤ c && c ≤ 'f') || ('A' ≤ c && c ≤ 'F')

/-- Language of one IPv6 group `[0-9a-fA-F]{1,4}`. -/
def hexGroupMatch (cs : List Char) : Bool :=
  decide (1 ≤ cs.length) && decide (cs.length ≤ 4) && cs.all isHexChar

/-- `is_ipv6` from `lb_cplane.cc`: strict eight-group IPv6 literal. -/
def is_ipv6 (s : String) : Bool :=
  let parts := splitOnChar ':' s.data
  parts.length = 8 && parts.all hexGroupMatch

/-- The host-name conversion step shared by the static `ReserveLoadBalancer`
and `GetLbUri` paths.  `resolve_host`'s `getaddrinfo` results are modelled
by the oracle pair `(ipV4, ipV6)`: the values its two out-parameters would
hold afterwards (`""` when that family was never produced).  When the
supplied address is already a literal, resolution is skipped entirely, so
the result cannot depend on the oracle. -/
def resolveCpAddr (cpIP : String) (useIPv6 : Bool) (ipV4 ipV6 : String) : String :=
  if is_ipv4 cpIP || is_ipv6 cpIP then cpIP
  else if useIPv6 && ipV6 ≠ "" then ipV6
  else if ipV4 ≠ "" then ipV4
  else cpIP

/-- The sync-address workaround applied by both `ReserveLoadBalancer`
paths and `GetLbUri`: `if (syncIP.empty() || syncIP.size() < 16)
syncIP = <fallback>;` where the fallback is the control-plane address. -/
def syncAddrFix (syncipaddress fallback : String) : String :=
  if syncipaddress = "" || syncipaddress.length < 16 then fallback
  else syncipaddress

/-! ## `LbControlPlaneClient` (backend session client) -/

/-- Client-side state of `LbControlPlaneClient`.  The gRPC stub is the
transport handle and carries no protocol state, so it is not modelled. -/
structure LbControlPlaneClient where
  cpAddr : String
  cpPort : Nat
  token : String
  name : String
  lbId : String
  weight : FloatV
  beAddr : String
  bePort : Nat
  beRange : Int
  sessionToken : String
  sessionId : String
  fillPercent : FloatV
  pidError : FloatV
  isReady : Bool
deriving DecidableEq, Repr

/-- The `LbControlPlaneClient` constructor.  `sessionToken` and
`sessionId` are `std::string` members without initializers, hence
default-constructed empty; `isReady` has the in-class initializer
`true`.  `fillPercent`/`pidError` are indeterminate in C++ until
`update` is called; they are pinned to `0` here (no claim reads them
before `update`). -/
def LbControlPlaneClient.mkClient (cpIP : String) (cpPort : Nat)
    (beIP : String) (bePort : Nat) (beRange : Int)
    (cliName token lbId : String) (weight : FloatV) : LbControlPlaneClient :=
  { cpAddr := cpIP, cpPort := cpPort, beAddr := beIP, bePort := bePort,
    beRange := beRange, name := cliName, token := token, lbId := lbId,
    weight := weight, sessionToken := "", sessionId := "",
    fillPercent := 0, pidError := 0, isReady := true }

/-- `LbControlPlaneClient::update`: set the telemetry to be sent next. -/
def LbControlPlaneClient.update (c : LbControlPlaneClient)
    (fill pidErr : FloatV) (ready : Bool) : LbControlPlaneClient :=
  { c with fillPercent := fill, pidError := pidErr, isReady := ready }

/-- The `RegisterRequest` that `Register` puts on the wire. -/
def LbControlPlaneClient.registerRequest (c : LbControlPlaneClient) : RegisterRequest :=
  { token := c.token, name := c.name, lbid := c.lbId, weight := c.weight,
    ipaddress := c.beAddr, udpport := c.bePort, portrange := c.beRange }

/-- `LbControlPlaneClient::Register`: one blocking RPC.  Returns the
request sent, the return code (`0` ok, `1` on transport failure), and
the client state afterwards: only a successful reply assigns
`sessionId`/`sessionToken`. -/
def LbControlPlaneClient.RegisterCall (c : LbControlPlaneClient)
    (status : Status) (reply : RegisterReply) :
    RegisterRequest × Int × LbControlPlaneClient :=
  (c.registerRequest,
   if status.ok then
     (0, { c with sessionId := reply.sessionid, sessionToken := reply.token })
   else (1, c))

/-- The `SendStateRequest` that `SendState` puts on the wire; `now` is
the `clock_gettime(CLOCK_REALTIME)` reading taken inside the call. -/
def LbControlPlaneClient.sendStateRequest (c : LbControlPlaneClient)
    (now : Timestamp) : SendStateRequest :=
  { token := c.sessionToken, lbid := c.lbId, sessionid := c.sessionId,
    timestamp := now, fillpercent := c.fillPercent,
    controlsignal := c.pidError, isready := c.isReady }

/-- `LbControlPlaneClient::SendState` (a `const` method: the client
state is unchanged).  Returns the list of requests placed on the wire
by the call — the network exchanges it performs — and the return code.
The C++ body sends unconditionally, with no precondition check. -/
def LbControlPlaneClient.SendStateCall (c : LbControlPlaneClient)
    (now : Timestamp) (status : Status) : List SendStateRequest × Int :=
  ([c.sendStateRequest now], if status.ok then 0 else 1)

/-- The `DeregisterRequest` that `Deregister` puts on the wire. -/
def LbControlPlaneClient.deregisterRequest (c : LbControlPlaneClient) : DeregisterRequest :=
  { token := c.sessionToken, lbid := c.lbId, sessionid := c.sessionId }

/-- `LbControlPlaneClient::Deregister` (`const`): the request sent and
the return code. -/
def LbControlPlaneClient.DeregisterCall (c : LbControlPlaneClient)
    (status : Status) : DeregisterRequest × Int :=
  (c.deregisterRequest, if status.ok then 0 else 1)

/-! ## `LbReservation` (admin-side reservation client) -/

/-- One entry of the client-stats map (`LbClientStatus`). -/
structure LbClientStatus where
  fillPercent : FloatV := 0
  controlSignal : FloatV := 0
  slotsAssigned : Nat := 0
  lastUpdated : Timestamp := ⟨0, 0⟩
  updateTime : Int := 0
deriving DecidableEq, Repr

/-- State of an `LbReservation` object.  `clientStats` models the
`std::unordered_map<std::string, LbClientStatus>` as a key-indexed
partial map (unordered, keys unique). -/
structure LbReservation where
  isReserved : Bool
  cpAddr : String
  cpPort : Nat
  lbName : String
  adminToken : String
  untilSeconds : Int
  syncIpAddress : String
  syncUdpPort : Nat
  dataIpv4Address : String
  dataIpv6Address : String
  lbId : String
  instanceToken : String
  clientStats : String → Option LbClientStatus

/-- The `LbReservation` constructor: stores the control-plane target,
LB name, admin token and expiry; every reply-derived member is still
default-constructed (`isReserved = false`, empty strings, `0` port,
empty stats map). -/
def LbReservation.mkReservation (cpIP : String) (cpPort : Nat)
    (name admintoken : String) (untilSeconds : Int) : LbReservation :=
  { isReserved := false, cpAddr := cpIP, cpPort := cpPort, lbName := name,
    adminToken := admintoken, untilSeconds := untilSeconds,
    syncIpAddress := "", syncUdpPort := 0, dataIpv4Address := "",
    dataIpv6Address := "", lbId := "", instanceToken := "",
    clientStats := fun _ => none }

/-- Member `LbReservation::ReserveLoadBalancer`: on transport failure
return `1` with the object untouched; on success apply the sync-address
workaround (fallback to `cpAddr`), store the reply fields
(`syncUdpPort` narrows `uint32 → uint16`), and set `isReserved`. -/
def LbReservation.ReserveLoadBalancer (r : LbReservation)
    (status : Status) (reply : ReserveLoadBalancerReply) : Int × LbReservation :=
  if !status.ok then (1, r)
  else
    (0, { r with
          instanceToken := reply.token,
          lbId := reply.lbid,
          syncIpAddress := syncAddrFix reply.syncipaddress r.cpAddr,
          syncUdpPort := reply.syncudpport % 65536,
          dataIpv4Address := reply.dataipv4address,
          dataIpv6Address := reply.dataipv6address,
          isReserved := true })

/-- Member `LbReservation::FreeLoadBalancer` — a `const` method: it
sends admin token and LB id, and no local state changes regardless of
outcome; the state component is returned to make that frame explicit. -/
def LbReservation.FreeLoadBalancer (r : LbReservation) (status : Status) :
    Int × LbReservation :=
  (if status.ok then 0 else 1, r)

/-- The stats record stored for a reply worker: every field is
overwritten, `updateTime` being derived locally from the reported
protobuf timestamp. -/
def workerEntry (w : WorkerStatus) : LbClientStatus :=
  { fillPercent := w.fillpercent, controlSignal := w.controlsignal,
    slotsAssigned := w.slotsassigned, lastUpdated := w.lastupdated,
    updateTime := timestampToMilliseconds w.lastupdated }

/-- The loop of `LoadBalancerStatus`: for each reply worker in wire
order, `clientStats[name]` (created on first use) has all of its fields
assigned from the reply. -/
def applyStatusReply (stats : String → Option LbClientStatus)
    (workers : List WorkerStatus) : String → Option LbClientStatus :=
  workers.foldl
    (fun m w => fun n => if n = w.name then some (workerEntry w) else m n)
    stats

/-- Member `LbReservation::LoadBalancerStatus`: on failure return `1`
with the object untouched; on success fold the reply workers into the
client-stats map. -/
def LbReservation.LoadBalancerStatus (r : LbReservation)
    (status : Status) (reply : LoadBalancerStatusReply) : Int × LbReservation :=
  if !status.ok then (1, r)
  else (0, { r with clientStats := applyStatusReply r.clientStats reply.workers })

/-- `LbReservation::reservationElapsed`: compares the current
`CLOCK_REALTIME` seconds (`nowSec`, passed in) with the stored expiry. -/
def LbReservation.reservationElapsed (r : LbReservation) (nowSec : Int) : Bool :=
  if r.untilSeconds < nowSec then true else false

/-- `LbReservation::reserved`: recomputed from `isReserved` and the
clock on every call; no network activity. -/
def LbReservation.reserved (r : LbReservation) (nowSec : Int) : Bool :=
  r.isReserved && !r.reservationElapsed nowSec

/-! ## Static one-shot paths -/

/-- The `ReserveLoadBalancerRequest` built by both Reserve paths:
admin token, LB name, and the expiry as a timestamp with zero nanos. -/
def reserveRequest (adminToken lbName : String) (untilSeconds : Int) :
    ReserveLoadBalancerRequest :=
  { token := adminToken, name := lbName,
    untilTime := { seconds := untilSeconds, nanos := 0 } }

/-- Static `LbReservation::ReserveLoadBalancer`: performs exactly one
RPC and returns a string.  `ipV4`/`ipV6` are the `resolve_host` oracle
(see `resolveCpAddr`).  On transport failure the result is
`error = <message>`; on success it is the `ejfat://` URI built by the
`sprintf` call: token, converted control-plane address, `%hu` port,
LB id, the data address of the requested family with the fixed data
port `19522`, and the (possibly fixed-up) sync address and `%d` sync
port. -/
def LbReservation.ReserveLoadBalancerStatic (cpIP : String) (cpPort : Nat)
    (lbName adminToken : String) (untilSeconds : Int) (useIPv6 : Bool)
    (status : Status) (reply : ReserveLoadBalancerReply)
    (ipV4 ipV6 : String) : String :=
  let ipAddr := resolveCpAddr cpIP useIPv6 ipV4 ipV6
  let syncIP := syncAddrFix reply.syncipaddress ipAddr
  if !status.ok then "error = " ++ status.error_message
  else if useIPv6 then
    "ejfat://" ++ reply.token ++ "@" ++ ipAddr ++ ":" ++ printUInt16 cpPort ++
      "/lb/" ++ reply.lbid ++ "?data=" ++ reply.dataipv6address ++ ":19522&sync=" ++
      syncIP ++ ":" ++ printInt32 reply.syncudpport
  else
    "ejfat://" ++ reply.token ++ "@" ++ ipAddr ++ ":" ++ printUInt16 cpPort ++
      "/lb/" ++ reply.lbid ++ "?data=" ++ reply.dataipv4address ++ ":19522&sync=" ++
      syncIP ++ ":" ++ printInt32 reply.syncudpport

/-- Static `LbReservation::FreeLoadBalancer`: one RPC, `0`/`1` result. -/
def LbReservation.FreeLoadBalancerStatic (status : Status) : Int :=
  if status.ok then 0 else 1

/-- Static `LbReservation::LoadBalancerStatus`: one RPC; on success the
caller-supplied stats map is folded exactly as in the member loop. -/
def LbReservation.LoadBalancerStatusStatic (status : Status)
    (reply : LoadBalancerStatusReply)
    (clientStats : String → Option LbClientStatus) :
    Int × (String → Option LbClientStatus) :=
  if !status.ok then (1, clientStats)
  else (0, applyStatusReply clientStats reply.workers)

/-- Static `LbReservation::GetLbUri`: identical to the static Reserve
path except that the reply comes from `GetLoadBalancer` and the URI
carries no `<token>@` part. -/
def LbReservation.GetLbUri (cpIP : String) (cpPort : Nat)
    (lbId adminToken : String) (useIPv6 : Bool)
    (status : Status) (reply : ReserveLoadBalancerReply)
    (ipV4 ipV6 : String) : String :=
  let ipAddr := resolveCpAddr cpIP useIPv6 ipV4 ipV6
  let syncIP := syncAddrFix reply.syncipaddress ipAddr
  if !status.ok then "error = " ++ status.error_message
  else if useIPv6 then
    "ejfat://" ++ ipAddr ++ ":" ++ printUInt16 cpPort ++
      "/lb/" ++ reply.lbid ++ "?data=" ++ reply.dataipv6address ++ ":19522&sync=" ++
      syncIP ++ ":" ++ printInt32 reply.syncudpport
  else
    "ejfat://" ++ ipAddr ++ ":" ++ printUInt16 cpPort ++
      "/lb/" ++ reply.lbid ++ "?data=" ++ reply.dataipv4address ++ ":19522&sync=" ++
      syncIP ++ ":" ++ printInt32 reply.syncudpport

/-! ## Theorems -/

/-- C3: `reservationElapsed` is true iff the current wall-clock seconds
strictly exceed the stored expiry; `reserved` is true iff a reservation
previously succeeded (`isReserved`) and the clock does not exceed the
expiry; a freshly constructed `LbReservation` (before any Reserve call)
is not reserved.  Both predicates are pure functions of the stored state
and the clock reading passed in — recomputed on every read and free of
network activity by construction. -/
theorem reserved_liveness_spec (r : LbReservation) (nowSec : Int)
    (cpIP : String) (cpPort : Nat) (nm tok : String) (u : Int) :
    (r.reservationElapsed nowSec = true ↔ r.untilSeconds < nowSec) ∧
    (r.reserved nowSec = true ↔ (r.isReserved = true ∧ nowSec ≤ r.untilSeconds)) ∧
    (LbReservation.mkReservation cpIP cpPort nm tok u).reserved nowSec = false := by
  refine ⟨?_, ?_, ?_⟩
  · simp [LbReservation.reservationElapsed]
  · simp only [LbReservation.reserved, LbReservation.reservationElapsed,
      Bool.and_eq_true, Bool.not_eq_true']
    constructor
    · rintro ⟨h1, h2⟩
      refine ⟨h1, ?_⟩
      by_contra hlt
      simp [if_pos (by omega : r.untilSeconds < nowSec)] at h2
    · rintro ⟨h1, h2⟩
      exact ⟨h1, by simp [if_neg (by omega : ¬ r.untilSeconds < nowSec)]⟩
  · simp [LbReservation.reserved, LbReservation.mkReservation]

/-- C6: a failed `Register` returns code `1` and leaves the whole client
— in particular `sessionId` and `sessionToken` — untouched; only a
successful `Register` assigns them, and it takes them from the reply. -/
theorem register_session_assignment (c : LbControlPlaneClient)
    (code : Int) (msg : String) (reply : RegisterReply) :
    (c.RegisterCall ⟨false, code, msg⟩ reply = (c.registerRequest, 1, c)) ∧
    ((c.RegisterCall ⟨true, code, msg⟩ reply).2.1 = 0 ∧
     (c.RegisterCall ⟨true, code, msg⟩ reply).2.2.sessionId = reply.sessionid ∧
     (c.RegisterCall ⟨true, code, msg⟩ reply).2.2.sessionToken = reply.token) :=
  ⟨rfl, rfl, rfl, rfl⟩

/-- C8: after a successful `Register`, the stored session credentials
equal those of the Register reply, and the requests built by the
subsequent `SendState` and `Deregister` calls (both `const`, so the
state is still the post-Register one) carry exactly that
`sessionId`/`sessionToken`. -/
theorem session_credentials_propagate (c : LbControlPlaneClient)
    (reg : RegisterReply) (now : Timestamp) (code : Int) (msg : String) :
    ((c.RegisterCall ⟨true, code, msg⟩ reg).2.2.sessionId = reg.sessionid) ∧
    ((c.RegisterCall ⟨true, code, msg⟩ reg).2.2.sessionToken = reg.token) ∧
    (((c.RegisterCall ⟨true, code, msg⟩ reg).2.2.sendStateRequest now).sessionid
      = reg.sessionid) ∧
    (((c.RegisterCall ⟨true, code, msg⟩ reg).2.2.sendStateRequest now).token
      = reg.token) ∧
    ((c.RegisterCall ⟨true, code, msg⟩ reg).2.2.deregisterRequest.sessionid
      = reg.sessionid) ∧
    ((c.RegisterCall ⟨true, code, msg⟩ reg).2.2.deregisterRequest.token
      = reg.token) :=
  ⟨rfl, rfl, rfl, rfl, rfl, rfl⟩

/-- C9: member `FreeLoadBalancer` never changes the local object — the
`isReserved` flag and every stored reservation field survive — so after
a successful Reserve followed by a Free, `reserved()` still reports
liveness purely from the clock versus the stored expiry. -/
theorem free_does_not_clear_reservation (r : LbReservation) (status : Status)
    (nowSec : Int) (reply : ReserveLoadBalancerReply) (msg : String) :
    ((r.FreeLoadBalancer status).2 = r) ∧
    ((r.FreeLoadBalancer status).2.reserved nowSec = r.reserved nowSec) ∧
    (((r.ReserveLoadBalancer ⟨true, 0, msg⟩ reply).2.FreeLoadBalancer status).2.isReserved
      = true) ∧
    (((r.ReserveLoadBalancer ⟨true, 0, msg⟩ reply).2.FreeLoadBalancer status).2.reserved nowSec
      = !((r.ReserveLoadBalancer ⟨true, 0, msg⟩ reply).2.FreeLoadBalancer
          status).2.reservationElapsed nowSec) :=
  ⟨rfl, rfl, rfl, rfl⟩

/-- C2 (claim as stated is false — counterexample): on a freshly
constructed client on which `Register` has never been called (session
credentials still empty), `SendState` nonetheless performs its network
exchange (the wire trace has one request, carrying empty credentials)
and returns success when the server accepts: it neither fails fast nor
avoids the network. -/
theorem sendState_before_register_cex :
    (LbControlPlaneClient.mkClient "1.2.3.4" 50051 "10.0.0.9" 19522 0
      "be1" "tok" "lb1" 1).sessionId = "" ∧
    (LbControlPlaneClient.mkClient "1.2.3.4" 50051 "10.0.0.9" 19522 0
      "be1" "tok" "lb1" 1).sessionToken = "" ∧
    ((LbControlPlaneClient.mkClient "1.2.3.4" 50051 "10.0.0.9" 19522 0
      "be1" "tok" "lb1" 1).SendStateCall ⟨1000, 0⟩ ⟨true, 0, ""⟩).1.length = 1 ∧
    ((LbControlPlaneClient.mkClient "1.2.3.4" 50051 "10.0.0.9" 19522 0
      "be1" "tok" "lb1" 1).SendStateCall ⟨1000, 0⟩ ⟨true, 0, ""⟩).2 = 0 :=
  ⟨rfl, rfl, rfl, rfl⟩

/-- C2 (amended): `SendState` has no precondition check at all — on
every client, registered or not, it performs exactly one network
exchange whose request carries the currently stored session
credentials (empty strings on a fresh client), and its return code
reflects only the server's status. -/
theorem sendState_unconditional (c : LbControlPlaneClient) (now : Timestamp)
    (status : Status) (cpIP : String) (cpPort : Nat) (beIP : String)
    (bePort : Nat) (beRange : Int) (nm tok lb : String) (w : FloatV) :
    ((c.SendStateCall now status).1.length = 1) ∧
    ((c.SendStateCall now status).1 = [c.sendStateRequest now]) ∧
    ((c.sendStateRequest now).token = c.sessionToken) ∧
    ((c.sendStateRequest now).sessionid = c.sessionId) ∧
    ((c.SendStateCall now status).2 = if status.ok then 0 else 1) ∧
    (((LbControlPlaneClient.mkClient cpIP cpPort beIP bePort beRange
        nm tok lb w).sendStateRequest now).token = "") ∧
    (((LbControlPlaneClient.mkClient cpIP cpPort beIP bePort beRange
        nm tok lb w).sendStateRequest now).sessionid = "") :=
  ⟨rfl, rfl, rfl, rfl, rfl, rfl, rfl⟩

/-- C5: when the transport reports failure, the member Reserve path
returns code `1` and the object — every previously stored reservation
field included — is exactly as before, and the static path returns the
string `error = <message>`; when the transport reports success the
static path's value is prefixed `ejfat://`, so a non-`ejfat://` result
is always a failure value. -/
theorem reserve_failure_reporting (r : LbReservation)
    (reply : ReserveLoadBalancerReply) (code : Int) (msg : String)
    (cpIP : String) (cpPort : Nat) (lbName adminToken : String)
    (untilSeconds : Int) (useIPv6 : Bool) (ipV4 ipV6 : String) :
    (r.ReserveLoadBalancer ⟨false, code, msg⟩ reply = (1, r)) ∧
    (LbReservation.ReserveLoadBalancerStatic cpIP cpPort lbName adminToken
        untilSeconds useIPv6 ⟨false, code, msg⟩ reply ipV4 ipV6
      = "error = " ++ msg) ∧
    (∃ rest, LbReservation.ReserveLoadBalancerStatic cpIP cpPort lbName adminToken
        untilSeconds useIPv6 ⟨true, code, msg⟩ reply ipV4 ipV6
      = "ejfat://" ++ rest) := by
  refine ⟨rfl, rfl, ?_⟩
  cases useIPv6 <;>
    exact ⟨_, by simp only [LbReservation.ReserveLoadBalancerStatic,
      Status.ok, Bool.not_true, Bool.false_eq_true, if_false, if_true,
      String.append_assoc]; rfl⟩

/-- A literal control-plane address is passed through unchanged, for
every resolver-oracle outcome. -/
lemma resolveCpAddr_literal (cpIP : String) (useIPv6 : Bool) (v4 v6 : String)
    (h : (is_ipv4 cpIP || is_ipv6 cpIP) = true) :
    resolveCpAddr cpIP useIPv6 v4 v6 = cpIP := by
  simp [resolveCpAddr, h]

/-- A sync address shorter than 16 characters is replaced by the
fallback. -/
lemma syncAddrFix_of_short (s fb : String) (h : s.length < 16) :
    syncAddrFix s fb = fb := by
  simp [syncAddrFix, h]

/-- A sync address of 16 or more characters is kept. -/
lemma syncAddrFix_of_long (s fb : String) (h : 16 ≤ s.length) :
    syncAddrFix s fb = s := by
  have h1 : ¬s.length < 16 := by omega
  have h2 : ¬s = "" := by
    intro e
    rw [e] at h
    simp at h
  simp [syncAddrFix, h1, h2]

/-- C1 (claim as stated is false — counterexample): the exact scenario
of the claim, with control-plane address `1.2.3.4`: the server replies
`syncipaddress = "10.0.0.1"` (8 characters, which trips the `< 16`
fallback), so the produced URI carries `sync=1.2.3.4:18000` — the
control-plane address — and not the server-supplied sync address
demanded by the claim. -/
theorem reserve_static_sync_cex :
    LbReservation.ReserveLoadBalancerStatic "1.2.3.4" 50051 "test" "admintok"
        1760003600 false ⟨true, 0, ""⟩
        ⟨"tok123", "lb7", "10.0.0.1", 18000, "10.0.0.5", ""⟩ "" ""
      = "ejfat://tok123@1.2.3.4:50051/lb/lb7?data=10.0.0.5:19522&sync=1.2.3.4:18000" ∧
    LbReservation.ReserveLoadBalancerStatic "1.2.3.4" 50051 "test" "admintok"
        1760003600 false ⟨true, 0, ""⟩
        ⟨"tok123", "lb7", "10.0.0.1", 18000, "10.0.0.5", ""⟩ "" ""
      ≠ "ejfat://tok123@1.2.3.4:50051/lb/lb7?data=10.0.0.5:19522&sync=10.0.0.1:18000" :=
  ⟨by decide, by decide⟩

/-- C1 (amended): in the claim's scenario the one-shot Reserve path
returns
`ejfat://tok123@<cpAddr>:<cpPort>/lb/lb7?data=10.0.0.5:19522&sync=<cpAddr>:18000`:
data address and fixed port 19522 as claimed, but the sync address is
the control-plane address, because the server-supplied `10.0.0.1` is
shorter than 16 characters and triggers the sync-address fallback. -/
theorem reserve_static_scenario_amended (cpAddr : String) (cpPort : Nat)
    (lbName adminToken : String) (u : Int) (v4 v6 : String)
    (h : is_ipv4 cpAddr = true) :
    LbReservation.ReserveLoadBalancerStatic cpAddr cpPort lbName adminToken u
        false ⟨true, 0, ""⟩
        ⟨"tok123", "lb7", "10.0.0.1", 18000, "10.0.0.5", ""⟩ v4 v6
      = "ejfat://" ++ "tok123" ++ "@" ++ cpAddr ++ ":" ++ printUInt16 cpPort ++
        "/lb/" ++ "lb7" ++ "?data=" ++ "10.0.0.5" ++ ":19522&sync=" ++ cpAddr ++
        ":" ++ printInt32 18000 := by
  have hres : resolveCpAddr cpAddr false v4 v6 = cpAddr :=
    resolveCpAddr_literal cpAddr false v4 v6 (by simp [h])
  have hsync : syncAddrFix "10.0.0.1" cpAddr = cpAddr :=
    syncAddrFix_of_short _ _ (by decide)
  simp only [LbReservation.ReserveLoadBalancerStatic, hres, hsync,
    Status.ok, Bool.not_true, Bool.false_eq_true, if_false,
    Bool.false_eq_true, if_true]

/-- Witness for the amended C1 theorem at `cpAddr = 1.2.3.4`,
`cpPort = 50051`. -/
theorem reserve_static_scenario_amended_witness :
    is_ipv4 "1.2.3.4" = true ∧
    LbReservation.ReserveLoadBalancerStatic "1.2.3.4" 50051 "test" "admintok"
        1760003600 false ⟨true, 0, ""⟩
        ⟨"tok123", "lb7", "10.0.0.1", 18000, "10.0.0.5", ""⟩ "" ""
      = "ejfat://tok123@1.2.3.4:50051/lb/lb7?data=10.0.0.5:19522&sync=1.2.3.4:18000" :=
  ⟨by decide,
   (reserve_static_scenario_amended "1.2.3.4" 50051 "test" "admintok"
      1760003600 "" "" (by decide)).trans (by decide)⟩

/-- C7: in the URI-producing static paths' address-conversion step, a
control-plane address matching the strict IPv4 or IPv6 literal pattern
is used unchanged — the result is independent of the resolver oracle,
i.e. host resolution is never consulted; otherwise the host is
resolved and the literal of the requested family is selected, falling
back to the IPv4 literal when the requested family produced none. -/
theorem resolve_literal_spec (cpIP : String) (useIPv6 : Bool) (v4 v6 : String) :
    ((is_ipv4 cpIP || is_ipv6 cpIP) = true →
      resolveCpAddr cpIP useIPv6 v4 v6 = cpIP) ∧
    ((is_ipv4 cpIP || is_ipv6 cpIP) = false →
      ((useIPv6 = true → v6 ≠ "" → resolveCpAddr cpIP useIPv6 v4 v6 = v6) ∧
       (useIPv6 = true → v6 = "" → v4 ≠ "" → resolveCpAddr cpIP useIPv6 v4 v6 = v4) ∧
       (useIPv6 = false → v4 ≠ "" → resolveCpAddr cpIP useIPv6 v4 v6 = v4))) := by
  refine ⟨fun h => resolveCpAddr_literal cpIP useIPv6 v4 v6 h, fun h => ⟨?_, ?_, ?_⟩⟩
  · intro hu hv
    subst hu
    simp [resolveCpAddr, h, hv]
  · intro hu hv hv4
    subst hu
    simp [resolveCpAddr, h, hv, hv4]
  · intro hu hv4
    subst hu
    simp [resolveCpAddr, h, hv4]

/-- Witness for `resolve_literal_spec`: the literal `1.2.3.4` is kept
even with a nonempty oracle, and a non-literal hostname resolves to the
oracle's IPv4 literal when IPv4 is requested. -/
theorem resolve_literal_spec_witness :
    (is_ipv4 "1.2.3.4" || is_ipv6 "1.2.3.4") = true ∧
    resolveCpAddr "1.2.3.4" true "9.9.9.9" "aa:bb:cc:dd:ee:ff:0:1" = "1.2.3.4" ∧
    (is_ipv4 "ejfat-lb.es.net" || is_ipv6 "ejfat-lb.es.net") = false ∧
    resolveCpAddr "ejfat-lb.es.net" false "129.57.177.9" "" = "129.57.177.9" :=
  ⟨by decide,
   (resolve_literal_spec "1.2.3.4" true "9.9.9.9" "aa:bb:cc:dd:ee:ff:0:1").1 (by decide),
   by decide,
   ((resolve_literal_spec "ejfat-lb.es.net" false "129.57.177.9" "").2
      (by decide)).2.2 rfl (by decide)⟩

/-- C10: the sync-address fallback fires exactly when the reply's sync
address is empty or shorter than 16 characters — in particular for any
dotted-decimal IPv4 sync address (at most 15 characters) — in which
case the stored (member Reserve) and emitted (`GetLbUri`) sync address
is the control-plane address rather than the server-supplied one. -/
theorem sync_fallback_spec (sync fallback : String) (r : LbReservation)
    (reply : ReserveLoadBalancerReply) (cpIP : String) (cpPort : Nat)
    (lbId adminToken : String) (v4 v6 : String) :
    (sync.length < 16 → syncAddrFix sync fallback = fallback) ∧
    (sync = "" → syncAddrFix sync fallback = fallback) ∧
    (16 ≤ sync.length → syncAddrFix sync fallback = sync) ∧
    (reply.syncipaddress.length < 16 →
      (r.ReserveLoadBalancer ⟨true, 0, ""⟩ reply).2.syncIpAddress = r.cpAddr) ∧
    (is_ipv4 cpIP = true → reply.syncipaddress.length < 16 →
      LbReservation.GetLbUri cpIP cpPort lbId adminToken false ⟨true, 0, ""⟩
          reply v4 v6
        = "ejfat://" ++ cpIP ++ ":" ++ printUInt16 cpPort ++ "/lb/" ++
          reply.lbid ++ "?data=" ++ reply.dataipv4address ++ ":19522&sync=" ++
          cpIP ++ ":" ++ printInt32 reply.syncudpport) := by
  refine ⟨fun h => syncAddrFix_of_short sync fallback h,
          fun h => ?_,
          fun h => syncAddrFix_of_long sync fallback h,
          fun h => syncAddrFix_of_short _ _ h,
          fun h1 h2 => ?_⟩
  · subst h
    exact syncAddrFix_of_short _ _ (by simp)
  · have hres : resolveCpAddr cpIP false v4 v6 = cpIP :=
      resolveCpAddr_literal cpIP false v4 v6 (by simp [h1])
    have hsync : syncAddrFix reply.syncipaddress cpIP = cpIP :=
      syncAddrFix_of_short _ _ h2
    simp only [LbReservation.GetLbUri, hres, hsync, Status.ok,
      Bool.not_true, Bool.false_eq_true, if_false, if_true]

/-- Witness for `sync_fallback_spec`: the 8-character `10.0.0.1` is
replaced, a 20-character IPv6 sync address is kept, a member Reserve
stores the control-plane address, and `GetLbUri` emits it. -/
theorem sync_fallback_spec_witness :
    syncAddrFix "10.0.0.1" "5.6.7.8" = "5.6.7.8" ∧
    syncAddrFix "2001:db8:0:0:0:0:0:1" "5.6.7.8" = "2001:db8:0:0:0:0:0:1" ∧
    ((LbReservation.mkReservation "1.2.3.4" 50051 "test" "tok" 1760003600).ReserveLoadBalancer
        ⟨true, 0, ""⟩ ⟨"tok123", "lb7", "10.0.0.1", 18000, "10.0.0.5", ""⟩).2.syncIpAddress
      = "1.2.3.4" ∧
    LbReservation.GetLbUri "1.2.3.4" 50051 "lb7" "tok" false ⟨true, 0, ""⟩
        ⟨"tok123", "lb7", "10.0.0.1", 18000, "10.0.0.5", ""⟩ "" ""
      = "ejfat://1.2.3.4:50051/lb/lb7?data=10.0.0.5:19522&sync=1.2.3.4:18000" :=
  ⟨(sync_fallback_spec "10.0.0.1" "5.6.7.8"
      (LbReservation.mkReservation "1.2.3.4" 50051 "test" "tok" 1760003600)
      ⟨"tok123", "lb7", "10.0.0.1", 18000, "10.0.0.5", ""⟩
      "1.2.3.4" 50051 "lb7" "tok" "" "").1 (by decide),
   (sync_fallback_spec "2001:db8:0:0:0:0:0:1" "5.6.7.8"
      (LbReservation.mkReservation "1.2.3.4" 50051 "test" "tok" 1760003600)
      ⟨"tok123", "lb7", "10.0.0.1", 18000, "10.0.0.5", ""⟩
      "1.2.3.4" 50051 "lb7" "tok" "" "").2.2.1 (by decide),
   (sync_fallback_spec "10.0.0.1" "5.6.7.8"
      (LbReservation.mkReservation "1.2.3.4" 50051 "test" "tok" 1760003600)
      ⟨"tok123", "lb7", "10.0.0.1", 18000, "10.0.0.5", ""⟩
      "1.2.3.4" 50051 "lb7" "tok" "" "").2.2.2.1 (by decide),
   ((sync_fallback_spec "10.0.0.1" "5.6.7.8"
      (LbReservation.mkReservation "1.2.3.4" 50051 "test" "tok" 1760003600)
      ⟨"tok123", "lb7", "10.0.0.1", 18000, "10.0.0.5", ""⟩
      "1.2.3.4" 50051 "lb7" "tok" "" "").2.2.2.2 (by decide) (by decide)).trans
     (by decide)⟩

/-- Unfolding one step of the status-reply fold. -/
lemma applyStatusReply_cons (s : String → Option LbClientStatus)
    (w : WorkerStatus) (ws : List WorkerStatus) :
    applyStatusReply s (w :: ws)
      = applyStatusReply (fun n => if n = w.name then some (workerEntry w) else s n) ws :=
  rfl

/-- Names absent from the reply keep their previous entry. -/
lemma applyStatusReply_not_mem (ws : List WorkerStatus) :
    ∀ (s : String → Option LbClientStatus) (n : String),
      n ∉ ws.map WorkerStatus.name → applyStatusReply s ws n = s n := by
  induction ws with
  | nil => intro s n _; rfl
  | cons w ws ih =>
    intro s n h
    rw [applyStatusReply_cons]
    simp only [List.map_cons, List.mem_cons, not_or] at h
    rw [ih _ n h.2]
    simp [h.1]

/-- Every name in the reply ends up bound to the wholesale record of
one of the reply's workers with that name. -/
lemma applyStatusReply_mem (ws : List WorkerStatus) :
    ∀ (s : String → Option LbClientStatus) (n : String),
      n ∈ ws.map WorkerStatus.name →
      ∃ w, w ∈ ws ∧ w.name = n ∧ applyStatusReply s ws n = some (workerEntry w) := by
  induction ws with
  | nil => intro s n h; simp at h
  | cons w ws ih =>
    intro s n h
    rw [applyStatusReply_cons]
    by_cases hm : n ∈ ws.map WorkerStatus.name
    · obtain ⟨w', hw', hname, heq⟩ := ih _ n hm
      exact ⟨w', List.mem_cons_of_mem _ hw', hname, heq⟩
    · have hn : n = w.name := by
        simp only [List.map_cons, List.mem_cons] at h
        rcases h with h | h
        · exact h
        · exact absurd h hm
      refine ⟨w, List.mem_cons_self _ _, hn.symm, ?_⟩
      rw [applyStatusReply_not_mem ws _ n hm]
      simp [hn]

/-- For names that occur in the reply, the resulting entry does not
depend on the map the fold started from. -/
lemma applyStatusReply_congr (ws : List WorkerStatus) :
    ∀ (s t : String → Option LbClientStatus) (n : String),
      n ∈ ws.map WorkerStatus.name →
      applyStatusReply s ws n = applyStatusReply t ws n := by
  induction ws with
  | nil => intro s t n h; simp at h
  | cons w ws ih =>
    intro s t n h
    rw [applyStatusReply_cons, applyStatusReply_cons]
    by_cases hm : n ∈ ws.map WorkerStatus.name
    · exact ih _ _ n hm
    · have hn : n = w.name := by
        simp only [List.map_cons, List.mem_cons] at h
        rcases h with h | h
        · exact h
        · exact absurd h hm
      rw [applyStatusReply_not_mem ws _ n hm, applyStatusReply_not_mem ws _ n hm]
      simp [hn]

/-- C4: a successful `LoadBalancerStatus` poll overwrites, wholesale,
the Client Stats entry of every worker named in the reply (the stored
record is `workerEntry`, all five fields, with the millisecond
`updateTime` derived locally from the reported protobuf timestamp),
creates entries lazily on first observation, and removes nothing:
names absent from the reply keep their entry unchanged.  Hence polling
twice with an unchanged server-side snapshot leaves every entry
identical to what the first poll produced. -/
theorem status_poll_spec (r : LbReservation) (reply : LoadBalancerStatusReply)
    (n : String) :
    ((r.LoadBalancerStatus ⟨true, 0, ""⟩ reply).1 = 0) ∧
    (n ∉ reply.workers.map WorkerStatus.name →
      (r.LoadBalancerStatus ⟨true, 0, ""⟩ reply).2.clientStats n = r.clientStats n) ∧
    (n ∈ reply.workers.map WorkerStatus.name →
      ∃ w, w ∈ reply.workers ∧ w.name = n ∧
        (r.LoadBalancerStatus ⟨true, 0, ""⟩ reply).2.clientStats n
          = some (workerEntry w)) ∧
    (((r.LoadBalancerStatus ⟨true, 0, ""⟩ reply).2.LoadBalancerStatus
        ⟨true, 0, ""⟩ reply).2.clientStats n
      = (r.LoadBalancerStatus ⟨true, 0, ""⟩ reply).2.clientStats n) := by
  refine ⟨rfl,
          fun h => applyStatusReply_not_mem reply.workers r.clientStats n h,
          fun h => applyStatusReply_mem reply.workers r.clientStats n h,
          ?_⟩
  show applyStatusReply (applyStatusReply r.clientStats reply.workers)
        reply.workers n
     = applyStatusReply r.clientStats reply.workers n
  by_cases hm : n ∈ reply.workers.map WorkerStatus.name
  · exact applyStatusReply_congr reply.workers _ _ n hm
  · rw [applyStatusReply_not_mem reply.workers _ n hm]

/-- Witness for `status_poll_spec`: one reply worker `w1` gets its
entry overwritten with the reply's record; an unrelated key `zzz` is
left exactly as before the poll. -/
theorem status_poll_spec_witness :
    ("w1" ∈ (LoadBalancerStatusReply.mk
        [⟨"w1", 42, 7, 3, ⟨5, 500000⟩⟩]).workers.map WorkerStatus.name ∧
      ∃ w, w ∈ (LoadBalancerStatusReply.mk
          [⟨"w1", 42, 7, 3, ⟨5, 500000⟩⟩]).workers ∧ w.name = "w1" ∧
        ((LbReservation.mkReservation "1.2.3.4" 50051 "test" "tok"
            1760003600).LoadBalancerStatus ⟨true, 0, ""⟩
          (LoadBalancerStatusReply.mk
            [⟨"w1", 42, 7, 3, ⟨5, 500000⟩⟩])).2.clientStats "w1"
          = some (workerEntry w)) ∧
    ("zzz" ∉ (LoadBalancerStatusReply.mk
        [⟨"w1", 42, 7, 3, ⟨5, 500000⟩⟩]).workers.map WorkerStatus.name ∧
      ((LbReservation.mkReservation "1.2.3.4" 50051 "test" "tok"
          1760003600).LoadBalancerStatus ⟨true, 0, ""⟩
        (LoadBalancerStatusReply.mk
          [⟨"w1", 42, 7, 3, ⟨5, 500000⟩⟩])).2.clientStats "zzz"
        = (LbReservation.mkReservation "1.2.3.4" 50051 "test" "tok"
            1760003600).clientStats "zzz") :=
  ⟨⟨by decide,
    (status_poll_spec (LbReservation.mkReservation "1.2.3.4" 50051 "test" "tok"
        1760003600)
      (LoadBalancerStatusReply.mk [⟨"w1", 42, 7, 3, ⟨5, 500000⟩⟩])
      "w1").2.2.1 (by decide)⟩,
   ⟨by decide,
    (status_poll_spec (LbReservation.mkReservation "1.2.3.4" 50051 "test" "tok"
        1760003600)
      (LoadBalancerStatusReply.mk [⟨"w1", 42, 7, 3, ⟨5, 500000⟩⟩])
      "zzz").2.1 (by decide)⟩⟩
